import Mathlib

/-!
Verification of the request-orchestrator core of `src/app.py`: the function
`optimize_prompt(basic_prompt, api_key)` with its retry loop, HTTP-result
classification and response validation.  The transport (`requests.post`) is
abstracted as a function from the attempt index to what that call does:
time out, raise some other exception, or deliver an HTTP response.  The
Streamlit display calls (`st.info`, `st.error`, ...) are presentation-only
side effects and are not modelled; the `time.sleep` calls are recorded as a
trace of sleep durations.
-/

namespace AIPrompt

/-- JSON values, as produced by `json.loads` on a response body.  Numbers
are modelled as integers (no claim involves numeric bodies); object lookup
follows `json.loads`, which keeps the last occurrence of a duplicated key. -/
inductive Json where
  | null : Json
  | bool : Bool → Json
  | num : Int → Json
  | str : String → Json
  | arr : List Json → Json
  | obj : List (String × Json) → Json

/-- Exceptions that the body of the retry loop can raise, abstracted to the
classes the `except` clauses of `optimize_prompt` distinguish. -/
inductive PyExn where
  | timeoutExn : PyExn                -- requests.exceptions.Timeout
  | requestsError : String → PyExn    -- any other requests.exceptions.RequestException
  | indexError : PyExn                -- `[0]` applied to an empty list
  | typeError : PyExn                 -- `[0]` applied to null / bool / number
  | keyError : PyExn                  -- `[0]` applied to a dict
  | attributeError : PyExn            -- `.get` / `.strip` on an object without it
  | otherError : String → PyExn       -- any other exception

/-- Lookup of a key in a decoded JSON object (last duplicate wins, as in
`json.loads`); `none` means the key is absent. -/
def lookupField (fs : List (String × Json)) (k : String) : Option Json :=
  fs.foldl (fun acc p => if p.1 = k then some p.2 else acc) none

/-- Python `x.get(k)`: raises AttributeError unless `x` is a dict; returns
`none` when the key is absent (the caller then substitutes a default). -/
def dictGet : Json → String → Except PyExn (Option Json)
  | .obj fs, k => .ok (lookupField fs k)
  | _, _ => .error .attributeError

/-- Python `x[0]`: first element of a list, first character of a string;
IndexError when empty, KeyError on a dict, TypeError otherwise. -/
def index0 : Json → Except PyExn Json
  | .arr [] => .error .indexError
  | .arr (x :: _) => .ok x
  | .str s => if s = "" then .error .indexError else .ok (.str (s.take 1))
  | .obj _ => .error .keyError
  | _ => .error .typeError

/-- The text extraction of lines 103-104 of `app.py`:
`result.get('candidates', [{}])[0]` followed by
`.get('content', {}).get('parts', [{}])[0].get('text', None)`,
with every raised exception made explicit.  The value `.ok none` is the
Python `None` result: the `text` key absent, or present with a JSON null. -/
def extractText (result : Json) : Except PyExn (Option Json) := do
  let cands ← dictGet result "candidates"
  let candidate ← index0 (cands.getD (.arr [.obj []]))
  let content ← dictGet candidate "content"
  let parts ← dictGet (content.getD (.obj [])) "parts"
  let part0 ← index0 (parts.getD (.arr [.obj []]))
  let text ← dictGet part0 "text"
  match text with
  | some .null => return none
  | some j => return (some j)
  | none => return none

/-- Classification of the distinct return statements of `optimize_prompt`,
each constructor carrying the data from which the returned message string
is built. -/
inductive Outcome where
  | inputMissing : Outcome                -- line 46: empty basic_prompt
  | credentialMissing : Outcome           -- line 50: empty api_key
  | httpError : Nat → Json → Outcome      -- line 96: status code and error details
  | malformedResponse : Json → Outcome    -- line 110: raw body, extraction gave None
  | emptyContent : Json → Outcome         -- line 115: raw body, blank text
  | success : String → Outcome            -- line 118: the extracted text
  | timeout : Outcome                     -- line 128: timed out on the last attempt
  | networkError : String → Outcome       -- line 132: RequestException details
  | unexpectedError : String → Outcome    -- line 135: generic exception details
  | exhaustedRetries : Outcome            -- line 137: fall-through after the loop

/-- One HTTP response as the requests library delivers it: status code, the
decoded JSON body when the body parses (`none` models a JSON decode
failure of `response.json()`), and the raw body text. -/
structure HttpResponse where
  status : Nat
  jsonBody : Option Json
  text : String

/-- Behaviour of the transport (`requests.post`) on one attempt. -/
inductive AttemptResult where
  | timeout : AttemptResult
  | requestException : String → AttemptResult   -- RequestException other than Timeout
  | otherException : String → AttemptResult     -- anything else raised by the call
  | response : HttpResponse → AttemptResult

/-- Result of one loop iteration: sleep and continue, or return. -/
inductive IterResult where
  | retryAfter : Nat → IterResult
  | done : Outcome → IterResult

/-- Observable result of a run: the classified outcome, the number of POST
requests issued, and the sleep durations in order. -/
structure RunResult where
  outcome : Outcome
  attempts : Nat
  sleeps : List Nat

def MAX_RETRIES : Nat := 3

def TIMEOUT_SECONDS : Nat := 30

/-- `response.ok` of the requests library: `False` exactly for status codes
400 to 599 (`raise_for_status` raises only in that range). -/
def respOk (status : Nat) : Bool :=
  if 400 ≤ status ∧ status ≤ 599 then false else true

/-- Lines 81-84: `error_details = response.json()`, with the inline
JSONDecodeError handler substituting `\x7b"message": response.text\x7d`. -/
def errorDetails (r : HttpResponse) : Json :=
  match r.jsonBody with
  | some j => j
  | none => .obj [("message", .str r.text)]

/-- Python `str.strip()` restricted to ASCII whitespace (the claims only
involve ASCII): drop leading and trailing whitespace characters. -/
def isPyWs (c : Char) : Bool :=
  c = ' ' || c = '\t' || c = '\n' || c = '\x0d' || c = '\x0b' || c = '\x0c'

def pyStrip (s : String) : String :=
  ⟨((s.data.dropWhile isPyWs).reverse.dropWhile isPyWs).reverse⟩

/-- The message lookup inside the line-96 return:
`error_details.get('error', \x7b\x7d).get('message', 'Check console for details.')`.
It raises AttributeError when `error_details` is not a dict (body was a
list, string, number, null or bool), and also when its `error` key is
present with a non-dict value (`.get` returns that value, the default
applies only to an absent key, so the second `.get` raises). -/
def errorMessage (d : Json) : Except PyExn Json :=
  match dictGet d "error" with
  | .error e => .error e
  | .ok errv =>
    match dictGet (errv.getD (.obj [])) "message" with
    | .error e => .error e
    | .ok msg => .ok (msg.getD (.str "Check console for details."))

/-- The body of the `try:` block for one attempt (lines 70-118): issue the
POST, classify the HTTP result, and on an OK status parse and validate the
body.  `.error e` is an exception escaping the block: the timeout or other
transport exception raised by `requests.post`, the decode error raised by
`response.json()` on an OK response with an unparsable body (a
RequestException in the requests library), an extraction error, or the
AttributeError that the line-96 message lookup itself can raise.  On the
non-retryable branch the code returns `API ERROR (status): message`; the
classification carries the status and the details dict the message is
looked up in, and the lookup is evaluated for its exception behaviour.
A non-string extracted value raises AttributeError at `.strip()`. -/
def tryBody (attempt : Nat) (res : AttemptResult) : Except PyExn IterResult :=
  match res with
  | .timeout => .error .timeoutExn
  | .requestException m => .error (.requestsError m)
  | .otherException m => .error (.otherError m)
  | .response r =>
    if respOk r.status then
      match r.jsonBody with
      | none => .error (.requestsError "JSONDecodeError")
      | some result =>
        match extractText result with
        | .error e => .error e
        | .ok none => .ok (.done (.malformedResponse result))
        | .ok (some (.str s)) =>
          if pyStrip s = "" then .ok (.done (.emptyContent result))
          else .ok (.done (.success s))
        | .ok (some _) => .error .attributeError
    else
      if r.status = 429 ∧ attempt < MAX_RETRIES - 1 then
        .ok (.retryAfter (2 ^ (attempt + 1)))
      else
        match errorMessage (errorDetails r) with
        | .error e => .error e
        | .ok _ => .ok (.done (.httpError r.status (errorDetails r)))

/-- Messages attached to exceptions caught by the catch-all clause. -/
def describeExn : PyExn → String
  | .timeoutExn => "Timeout"
  | .requestsError m => m
  | .indexError => "list index out of range"
  | .typeError => "TypeError"
  | .keyError => "KeyError"
  | .attributeError => "AttributeError"
  | .otherError m => m

/-- The `except` clauses of the loop body (lines 120-135), in order:
Timeout (retry with backoff if attempts remain, else return the timeout
result), then any other RequestException (return a network error), then
`except Exception` catching everything else. -/
def handleExn (attempt : Nat) (e : PyExn) : Except PyExn IterResult :=
  match e with
  | .timeoutExn =>
    if attempt < MAX_RETRIES - 1 then .ok (.retryAfter (2 ^ (attempt + 1)))
    else .ok (.done .timeout)
  | .requestsError m => .ok (.done (.networkError m))
  | e => .ok (.done (.unexpectedError (describeExn e)))

/-- One iteration of the retry loop: run the `try:` body and feed any
raised exception to the `except` clauses. -/
def runIter (attempt : Nat) (res : AttemptResult) : Except PyExn IterResult :=
  match tryBody attempt res with
  | .ok step => .ok step
  | .error e => handleExn attempt e

/-- The `for attempt in range(MAX_RETRIES)` loop (lines 68-137), run over
an explicit list of attempt indices; the empty list is the fall-through
return of line 137.  Counts the POSTs issued and records the sleeps.  An
`.error` would be an exception escaping the whole loop. -/
def runList (T : Nat → AttemptResult) : List Nat → Except PyExn RunResult
  | [] => .ok ⟨.exhaustedRetries, 0, []⟩
  | attempt :: rest =>
    match runIter attempt (T attempt) with
    | .error e => .error e
    | .ok (.done o) => .ok ⟨o, 1, []⟩
    | .ok (.retryAfter w) =>
      match runList T rest with
      | .error e => .error e
      | .ok r => .ok ⟨r.outcome, r.attempts + 1, w :: r.sleeps⟩

/-- `optimize_prompt(basic_prompt, api_key)` (lines 39-137).  The Python
truthiness tests `if not basic_prompt` and `if not api_key` hold exactly
for the empty string.  `T` gives the behaviour of `requests.post` on each
attempt; `.ok` carries the classified result together with the observable
attempt/sleep trace, `.error` would be an exception escaping to the
caller. -/
def optimize_prompt (basic_prompt api_key : String) (T : Nat → AttemptResult) :
    Except PyExn RunResult :=
  if basic_prompt = "" then .ok ⟨.inputMissing, 0, []⟩
  else if api_key = "" then .ok ⟨.credentialMissing, 0, []⟩
  else runList T (List.range MAX_RETRIES)

/-! Outcome discriminators, used to state that a run is NOT classified a
certain way without quantifying over the data the classification carries. -/

def Outcome.isHttpError : Outcome → Bool
  | .httpError _ _ => true
  | _ => false

def Outcome.isMalformed : Outcome → Bool
  | .malformedResponse _ => true
  | _ => false

def Outcome.isInputMissing : Outcome → Bool
  | .inputMissing => true
  | _ => false

def Outcome.isExhausted : Outcome → Bool
  | .exhaustedRetries => true
  | _ => false

/-- Whether a finished run was classified by the given predicate (false on
an escaped exception). -/
def outcomeIs (p : Outcome → Bool) : Except PyExn RunResult → Bool
  | .ok r => p r.outcome
  | .error _ => false

/-- Whether no exception escaped. -/
def isOkE {α : Type} : Except PyExn α → Bool
  | .ok _ => true
  | .error _ => false

/-- Whether one loop iteration ended in `return` with the fall-through
classification (it never does; see `stepExhausted_runIter`). -/
def stepExhausted : Except PyExn IterResult → Bool
  | .ok (.done o) => o.isExhausted
  | _ => false

/-- Whether one loop iteration ended in sleep-and-retry. -/
def retryStep : Except PyExn IterResult → Bool
  | .ok (.retryAfter _) => true
  | _ => false

/-! Concrete transports used as test inputs for the claims. -/

/-- Transport that times out on every attempt. -/
def allTimeoutT : Nat → AttemptResult := fun _ => .timeout

/-- Transport that is rate limited (HTTP 429) on every attempt. -/
def all429T : Nat → AttemptResult := fun _ => .response ⟨429, some (.obj []), ""⟩

/-- A well-formed success body whose generated text is "Hello". -/
def goodBody : Json :=
  .obj [("candidates", .arr [.obj [("content",
    .obj [("parts", .arr [.obj [("text", .str "Hello")]])])]])]

/-- A success body whose generated text is whitespace only. -/
def blankBody : Json :=
  .obj [("candidates", .arr [.obj [("content",
    .obj [("parts", .arr [.obj [("text", .str "  ")]])])]])]

/-- Transport: HTTP 429 on the first two attempts, then HTTP 200 with a
well-formed body. -/
def mixed429T : Nat → AttemptResult := fun i =>
  if i < 2 then .response ⟨429, some (.obj []), ""⟩
  else .response ⟨200, some goodBody, ""⟩

/-- Transport returning HTTP 304 with a valid JSON body on every attempt. -/
def status304T : Nat → AttemptResult := fun _ => .response ⟨304, some (.obj []), ""⟩

/-- Transport returning status 600 with a valid JSON body on every attempt. -/
def status600T : Nat → AttemptResult := fun _ => .response ⟨600, some (.obj []), ""⟩

/-- Transport returning HTTP 403 on every attempt. -/
def status403T : Nat → AttemptResult := fun _ => .response ⟨403, some (.obj []), ""⟩

/-- Transport returning HTTP 403 whose JSON body is the empty list, on
which the line-96 message lookup raises AttributeError. -/
def badBody403T : Nat → AttemptResult := fun _ => .response ⟨403, some (.arr []), "[]"⟩

/-- Transport returning HTTP 200 with an empty `candidates` array. -/
def emptyCandidatesT : Nat → AttemptResult :=
  fun _ => .response ⟨200, some (.obj [("candidates", .arr [])]), "raw body"⟩

/-- Transport returning HTTP 200 with a body that has no `candidates` key. -/
def noCandidatesT : Nat → AttemptResult := fun _ => .response ⟨200, some (.obj []), ""⟩

/-- Transport returning HTTP 200 with whitespace-only generated text. -/
def blankTextT : Nat → AttemptResult := fun _ => .response ⟨200, some blankBody, ""⟩

/-- Transport raising a non-timeout RequestException on every attempt. -/
def dnsFailT : Nat → AttemptResult := fun _ => .requestException "connection refused"

/-- Transport returning HTTP 304 with an unparsable body on every attempt. -/
def badJson304T : Nat → AttemptResult := fun _ => .response ⟨304, none, "Not Modified"⟩

/-- Transport returning HTTP 500 with an unparsable body on every attempt. -/
def badJson500T : Nat → AttemptResult :=
  fun _ => .response ⟨500, none, "Internal Server Error"⟩

/-- Transport: HTTP 429 with an unparsable body, then HTTP 200 with a
well-formed body. -/
def badJson429ThenGoodT : Nat → AttemptResult := fun i =>
  if i = 0 then .response ⟨429, none, "rate limited"⟩
  else .response ⟨200, some goodBody, ""⟩

/-! Helper lemmas about single iterations and the loop. -/

/-- For a valid prompt and key, `optimize_prompt` runs the retry loop over
the attempt indices 0, 1, 2. -/
theorem optimize_prompt_valid (p k : String) (T : Nat → AttemptResult)
    (hp : p ≠ "") (hk : k ≠ "") :
    optimize_prompt p k T = runList T [0, 1, 2] := by
  simp only [optimize_prompt, if_neg hp, if_neg hk]
  rfl

/-- A timed-out attempt with attempts remaining sleeps 2 ^ (attempt + 1)
seconds and retries. -/
theorem runIter_timeout_retry (a : Nat) (ha : a < MAX_RETRIES - 1) :
    runIter a .timeout = .ok (.retryAfter (2 ^ (a + 1))) := by
  simp [runIter, tryBody, handleExn, ha]

/-- A timed-out final attempt returns the timeout classification. -/
theorem runIter_timeout_last (a : Nat) (ha : ¬ a < MAX_RETRIES - 1) :
    runIter a .timeout = .ok (.done .timeout) := by
  simp [runIter, tryBody, handleExn, ha]

/-- The timeout handler with attempts remaining. -/
theorem handleExn_timeout_retry (a : Nat) (h : a < MAX_RETRIES - 1) :
    handleExn a .timeoutExn = .ok (.retryAfter (2 ^ (a + 1))) := if_pos h

/-- The timeout handler on the final attempt. -/
theorem handleExn_timeout_last (a : Nat) (h : ¬ a < MAX_RETRIES - 1) :
    handleExn a .timeoutExn = .ok (.done .timeout) := if_neg h

/-- A 429 response with attempts remaining sleeps 2 ^ (attempt + 1)
seconds and retries. -/
theorem runIter_429_retry (a : Nat) (r : HttpResponse) (hs : r.status = 429)
    (ha : a < MAX_RETRIES - 1) :
    runIter a (.response r) = .ok (.retryAfter (2 ^ (a + 1))) := by
  have hok : respOk r.status = false := by rw [hs]; decide
  simp only [runIter, tryBody, hok, Bool.false_eq_true, if_false]
  rw [if_pos ⟨hs, ha⟩]

/-- The only exception `dictGet` raises is AttributeError. -/
theorem dictGet_error (j : Json) (k : String) (e : PyExn)
    (h : dictGet j k = .error e) : e = .attributeError := by
  cases j <;> simp [dictGet] at h <;> exact h.symm

/-- The only exception the line-96 message lookup raises is
AttributeError. -/
theorem errorMessage_error (d : Json) (e : PyExn)
    (h : errorMessage d = .error e) : e = .attributeError := by
  unfold errorMessage at h
  cases h1 : dictGet d "error" with
  | error e1 =>
    rw [h1] at h
    dsimp only at h
    cases h
    exact dictGet_error d "error" _ h1
  | ok v =>
    rw [h1] at h
    dsimp only at h
    cases h2 : dictGet (v.getD (.obj [])) "message" with
    | error e2 =>
      rw [h2] at h
      dsimp only at h
      cases h
      exact dictGet_error _ "message" _ h2
    | ok msg =>
      rw [h2] at h
      dsimp only at h
      cases h

/-- A response with status 400-599 other than 429 whose line-96 message
lookup succeeds returns the HTTP-error classification at once. -/
theorem runIter_http_error (a : Nat) (r : HttpResponse) (m : Json)
    (h4 : 400 ≤ r.status) (h5 : r.status ≤ 599) (hne : r.status ≠ 429)
    (hm : errorMessage (errorDetails r) = .ok m) :
    runIter a (.response r) = .ok (.done (.httpError r.status (errorDetails r))) := by
  have hok : respOk r.status = false := by
    unfold respOk
    rw [if_pos ⟨h4, h5⟩]
  have hguard : ¬(r.status = 429 ∧ a < MAX_RETRIES - 1) := fun hc => hne hc.1
  simp [runIter, tryBody, hok, hguard, hm]

/-- A response with status 400-599 other than 429 whose line-96 message
lookup raises is routed by `except Exception` to the generic unexpected
error. -/
theorem runIter_http_error_raise (a : Nat) (r : HttpResponse)
    (h4 : 400 ≤ r.status) (h5 : r.status ≤ 599) (hne : r.status ≠ 429)
    (hm : errorMessage (errorDetails r) = .error .attributeError) :
    runIter a (.response r) =
      .ok (.done (.unexpectedError (describeExn .attributeError))) := by
  have hok : respOk r.status = false := by
    unfold respOk
    rw [if_pos ⟨h4, h5⟩]
  have hguard : ¬(r.status = 429 ∧ a < MAX_RETRIES - 1) := fun hc => hne hc.1
  simp [runIter, tryBody, hok, hguard, hm, handleExn]

/-- An OK response whose body extracts to nonblank text succeeds. -/
theorem runIter_success (a : Nat) (r : HttpResponse) (b : Json) (t : String)
    (hok : respOk r.status = true) (hb : r.jsonBody = some b)
    (hx : extractText b = .ok (some (.str t))) (ht : ¬ pyStrip t = "") :
    runIter a (.response r) = .ok (.done (.success t)) := by
  simp [runIter, tryBody, hok, hb, hx, ht]

/-- An OK response whose extraction yields Python None is malformed. -/
theorem runIter_malformed (a : Nat) (r : HttpResponse) (b : Json)
    (hok : respOk r.status = true) (hb : r.jsonBody = some b)
    (hx : extractText b = .ok none) :
    runIter a (.response r) = .ok (.done (.malformedResponse b)) := by
  simp [runIter, tryBody, hok, hb, hx]

/-- An OK response whose body extracts to blank text is empty content. -/
theorem runIter_empty_content (a : Nat) (r : HttpResponse) (b : Json) (t : String)
    (hok : respOk r.status = true) (hb : r.jsonBody = some b)
    (hx : extractText b = .ok (some (.str t))) (ht : pyStrip t = "") :
    runIter a (.response r) = .ok (.done (.emptyContent b)) := by
  simp [runIter, tryBody, hok, hb, hx, ht]

/-- Every exception raised inside the loop body is caught by one of the
`except` clauses. -/
theorem handleExn_isOk (a : Nat) (e : PyExn) : isOkE (handleExn a e) = true := by
  cases e <;> delta handleExn <;> dsimp only <;> (repeat' split) <;> rfl

/-- No iteration of the loop lets an exception escape. -/
theorem runIter_isOk (a : Nat) (res : AttemptResult) : isOkE (runIter a res) = true := by
  unfold runIter
  cases htb : tryBody a res with
  | ok step => rfl
  | error e => exact handleExn_isOk a e

/-- No run of the loop lets an exception escape. -/
theorem runList_isOk (T : Nat → AttemptResult) (l : List Nat) :
    isOkE (runList T l) = true := by
  induction l with
  | nil => rfl
  | cons a rest ih =>
    cases h : runIter a (T a) with
    | error e =>
      have hiter := runIter_isOk a (T a)
      rw [h] at hiter
      exact absurd hiter (by simp [isOkE])
    | ok step =>
      cases step with
      | done o => simp [runList, h, isOkE]
      | retryAfter w =>
        cases h2 : runList T rest with
        | error e =>
          rw [h2] at ih
          exact absurd ih (by simp [isOkE])
        | ok r => simp [runList, h, h2, isOkE]

/-- No iteration returns the fall-through classification: every `return`
inside the loop body carries some other outcome. -/
theorem stepExhausted_runIter (a : Nat) (res : AttemptResult) :
    stepExhausted (runIter a res) = false := by
  cases res <;> delta runIter tryBody handleExn <;> dsimp only <;>
    (repeat' split) <;> try rfl
  all_goals rename_i step heq
  all_goals (repeat' split at heq) <;> cases heq <;> rfl

/-- On the final attempt index no branch retries: the 429 branch and the
timeout handler both test `attempt < MAX_RETRIES - 1`. -/
theorem retryStep_last (res : AttemptResult) :
    retryStep (runIter (MAX_RETRIES - 1) res) = false := by
  cases res <;> delta runIter tryBody handleExn <;> dsimp only <;>
    (repeat' split) <;> first | rfl | omega | skip
  all_goals rename_i step heq
  all_goals (repeat' split at heq) <;> cases heq <;> first | rfl | omega

/-- A run of the loop ending at the final attempt index never produces the
fall-through classification. -/
theorem runList_last_not_exhausted (T : Nat → AttemptResult) :
    outcomeIs Outcome.isExhausted (runList T [MAX_RETRIES - 1]) = false := by
  cases h : runIter (MAX_RETRIES - 1) (T (MAX_RETRIES - 1)) with
  | error e => simp [runList, h, outcomeIs]
  | ok step =>
    cases step with
    | done o =>
      have hsb := stepExhausted_runIter (MAX_RETRIES - 1) (T (MAX_RETRIES - 1))
      rw [h] at hsb
      simp only [runList, h, outcomeIs]
      exact hsb
    | retryAfter w =>
      have hr := retryStep_last (T (MAX_RETRIES - 1))
      rw [h] at hr
      exact absurd hr (by simp [retryStep])

/-- Prepending an attempt preserves never-fall-through. -/
theorem runList_cons_not_exhausted (T : Nat → AttemptResult) (a : Nat) (rest : List Nat)
    (hrest : outcomeIs Outcome.isExhausted (runList T rest) = false) :
    outcomeIs Outcome.isExhausted (runList T (a :: rest)) = false := by
  cases h : runIter a (T a) with
  | error e => simp [runList, h, outcomeIs]
  | ok step =>
    cases step with
    | done o =>
      have hsb := stepExhausted_runIter a (T a)
      rw [h] at hsb
      simp only [runList, h, outcomeIs]
      exact hsb
    | retryAfter w =>
      cases h2 : runList T rest with
      | error e => simp [runList, h, h2, outcomeIs]
      | ok r =>
        rw [h2] at hrest
        simp only [runList, h, h2, outcomeIs]
        exact hrest

/-! The claims. -/

/-- Claim C1: for every transport that times out on every attempt and any
valid prompt and key, generate performs exactly MAX_RETRIES = 3 attempts,
sleeping 2 ^ 1 seconds after the first timed-out attempt and 2 ^ 2 after
the second, and then returns the Timeout failure classification. -/
theorem c1_all_timeouts (p k : String) (T : Nat → AttemptResult)
    (hp : p ≠ "") (hk : k ≠ "") (hT : ∀ i, T i = .timeout) :
    optimize_prompt p k T = .ok ⟨.timeout, 3, [2 ^ 1, 2 ^ 2]⟩ := by
  rw [optimize_prompt_valid p k T hp hk]
  have i0 : runIter 0 (T 0) = .ok (.retryAfter 2) := by
    rw [hT 0]; exact runIter_timeout_retry 0 (by decide)
  have i1 : runIter 1 (T 1) = .ok (.retryAfter 4) := by
    rw [hT 1]; exact runIter_timeout_retry 1 (by decide)
  have i2 : runIter 2 (T 2) = .ok (.done .timeout) := by
    rw [hT 2]; exact runIter_timeout_last 2 (by decide)
  simp only [runList, i0, i1, i2]
  rfl

/-- Witness for C1 at the concrete always-timing-out transport. -/
theorem c1_all_timeouts_witness :
    optimize_prompt "hi" "key" allTimeoutT = .ok ⟨.timeout, 3, [2 ^ 1, 2 ^ 2]⟩ :=
  c1_all_timeouts "hi" "key" allTimeoutT (by decide) (by decide) (fun i => rfl)

/-- Claim C2: for a transport that returns HTTP 429 on the first two
attempts and HTTP 200 with a well-formed body on the third, generate makes
exactly 3 requests, sleeping 2 ^ 1 then 2 ^ 2 seconds between them, and
returns Success carrying the text extracted at
candidates[0].content.parts[0].text (here: nonblank string t). -/
theorem c2_rate_limit_then_success (p k : String) (T : Nat → AttemptResult)
    (r0 r1 r2 : HttpResponse) (b : Json) (t : String)
    (hp : p ≠ "") (hk : k ≠ "")
    (h0 : T 0 = .response r0) (hs0 : r0.status = 429)
    (h1 : T 1 = .response r1) (hs1 : r1.status = 429)
    (h2 : T 2 = .response r2) (hs2 : r2.status = 200)
    (hb : r2.jsonBody = some b)
    (hx : extractText b = .ok (some (.str t)))
    (ht : ¬ pyStrip t = "") :
    optimize_prompt p k T = .ok ⟨.success t, 3, [2 ^ 1, 2 ^ 2]⟩ := by
  rw [optimize_prompt_valid p k T hp hk]
  have i0 : runIter 0 (T 0) = .ok (.retryAfter 2) := by
    rw [h0]; exact runIter_429_retry 0 r0 hs0 (by decide)
  have i1 : runIter 1 (T 1) = .ok (.retryAfter 4) := by
    rw [h1]; exact runIter_429_retry 1 r1 hs1 (by decide)
  have i2 : runIter 2 (T 2) = .ok (.done (.success t)) := by
    rw [h2]
    exact runIter_success 2 r2 b t (by rw [hs2]; decide) hb hx ht
  simp only [runList, i0, i1, i2]
  rfl

/-- Witness for C2 at a concrete 429-429-200 transport with body text
"Hello". -/
theorem c2_rate_limit_then_success_witness :
    optimize_prompt "hi" "key" mixed429T = .ok ⟨.success "Hello", 3, [2 ^ 1, 2 ^ 2]⟩ :=
  c2_rate_limit_then_success "hi" "key" mixed429T
    ⟨429, some (.obj []), ""⟩ ⟨429, some (.obj []), ""⟩ ⟨200, some goodBody, ""⟩
    goodBody "Hello" (by decide) (by decide)
    rfl rfl rfl rfl rfl rfl rfl rfl (by decide)

/-- Claim C3 is false as stated, twice over.  It quantifies over every
non-2xx status other than 429, but the code tests `response.ok`, which is
false only for statuses 400-599: a 304 response (non-2xx, not 429) is
treated as OK and flows into response validation, returning
MalformedResponse for a body with no candidates key, not HttpError(304),
and a status-600 response behaves the same way.  And even for a 403, the
line-96 message lookup raises AttributeError when the body is not a JSON
object (here the empty list), which `except Exception` converts to the
generic unexpected-error return, not HttpError(403). -/
theorem c3_counterexample_not_http_error :
    optimize_prompt "hi" "key" status304T = .ok ⟨.malformedResponse (.obj []), 1, []⟩ ∧
    outcomeIs Outcome.isHttpError (optimize_prompt "hi" "key" status304T) = false ∧
    optimize_prompt "hi" "key" status600T = .ok ⟨.malformedResponse (.obj []), 1, []⟩ ∧
    optimize_prompt "hi" "key" badBody403T =
      .ok ⟨.unexpectedError "AttributeError", 1, []⟩ ∧
    outcomeIs Outcome.isHttpError (optimize_prompt "hi" "key" badBody403T) = false :=
  ⟨rfl, rfl, rfl, rfl, rfl⟩

/-- Claim C3 (amended): for every HTTP response with a status in 400-599
other than 429 arriving at any attempt of the retry loop, the loop returns
at once, with exactly one further request and no retry: with the
HttpError(status) classification when the line-96 message lookup on the
error details succeeds (details dict whose optional error field is a
dict), and with the generic unexpected-error classification when that
lookup raises AttributeError. -/
theorem c3_amended_http_error_no_retry (a : Nat) (rest : List Nat)
    (T : Nat → AttemptResult) (r : HttpResponse)
    (hA : T a = .response r) (h4 : 400 ≤ r.status) (h5 : r.status ≤ 599)
    (hne : r.status ≠ 429) :
    runList T (a :: rest) =
      .ok ⟨match errorMessage (errorDetails r) with
            | .ok _ => .httpError r.status (errorDetails r)
            | .error e => .unexpectedError (describeExn e), 1, []⟩ := by
  cases hm : errorMessage (errorDetails r) with
  | ok m =>
    have h := runIter_http_error a r m h4 h5 hne hm
    rw [← hA] at h
    simp only [runList, h]
  | error e =>
    have he : e = .attributeError := errorMessage_error _ _ hm
    subst he
    have h := runIter_http_error_raise a r h4 h5 hne hm
    rw [← hA] at h
    simp only [runList, h]

/-- Witness for the amended C3 at a concrete 403 response on the first
attempt, with two attempts remaining. -/
theorem c3_amended_witness :
    runList status403T [0, 1, 2] = .ok ⟨.httpError 403 (.obj []), 1, []⟩ :=
  c3_amended_http_error_no_retry 0 [1, 2] status403T ⟨403, some (.obj []), ""⟩
    rfl (by decide) (by decide) (by decide)

/-- Claim C4 is false as stated: the guard `if not basic_prompt` rejects
only the empty string, a whitespace-only prompt is truthy in Python, so
generate proceeds to issue network requests (three of them here). -/
theorem c4_counterexample_whitespace_not_rejected :
    optimize_prompt " " "key" allTimeoutT = .ok ⟨.timeout, 3, [2 ^ 1, 2 ^ 2]⟩ ∧
    outcomeIs Outcome.isInputMissing (optimize_prompt " " "key" allTimeoutT) = false :=
  ⟨rfl, rfl⟩

/-- Claim C4 (amended): for every empty userText, generate returns the
InputMissing classification without issuing any network call; a
whitespace-only userText is not rejected and proceeds to the network. -/
theorem c4_amended_empty_input (k : String) (T : Nat → AttemptResult) :
    optimize_prompt "" k T = .ok ⟨.inputMissing, 0, []⟩ := rfl

/-- Claim C5: a transport-level exception other than a timeout
(RequestException: DNS failure, connection refused, ...) at any attempt of
the retry loop makes it return the NetworkError classification at once,
with exactly one further request and no retry, regardless of how many
attempts remain. -/
theorem c5_network_error_no_retry (a : Nat) (rest : List Nat)
    (T : Nat → AttemptResult) (m : String)
    (hA : T a = .requestException m) :
    runList T (a :: rest) = .ok ⟨.networkError m, 1, []⟩ := by
  have h : runIter a (T a) = .ok (.done (.networkError m)) := by rw [hA]; rfl
  simp only [runList, h]

/-- Witness for C5 at a concrete connection failure on the middle attempt. -/
theorem c5_network_error_witness :
    runList dnsFailT [1, 2] = .ok ⟨.networkError "connection refused", 1, []⟩ :=
  c5_network_error_no_retry 1 [2] dnsFailT "connection refused" rfl

/-- Claim C6 is false as stated: it includes bodies where candidates is an
empty array, but on those `result.get('candidates', [{}])[0]` raises
IndexError, which the final `except Exception` clause converts to the
generic unexpected-exception classification, not MalformedResponse. -/
theorem c6_counterexample_empty_candidates :
    optimize_prompt "hi" "key" emptyCandidatesT =
      .ok ⟨.unexpectedError "list index out of range", 1, []⟩ ∧
    outcomeIs Outcome.isMalformed (optimize_prompt "hi" "key" emptyCandidatesT) = false :=
  ⟨rfl, rfl⟩

/-- Claim C6 (amended): for every HTTP 2xx response whose JSON body lacks
the expected path by a missing key or a null text value (so the extraction
yields Python None without raising), the loop returns the
MalformedResponse classification with no retry; empty candidates or parts
arrays instead raise IndexError, caught by the generic handler. -/
theorem c6_amended_malformed_no_retry (a : Nat) (rest : List Nat)
    (T : Nat → AttemptResult) (r : HttpResponse) (b : Json)
    (hA : T a = .response r) (h2 : 200 ≤ r.status) (h3 : r.status ≤ 299)
    (hb : r.jsonBody = some b) (hx : extractText b = .ok none) :
    runList T (a :: rest) = .ok ⟨.malformedResponse b, 1, []⟩ := by
  have hok : respOk r.status = true := by
    unfold respOk
    rw [if_neg (by omega : ¬(400 ≤ r.status ∧ r.status ≤ 599))]
  have h := runIter_malformed a r b hok hb hx
  rw [← hA] at h
  simp only [runList, h]

/-- Witness for the amended C6 at a 200 response whose body has no
candidates key. -/
theorem c6_amended_witness :
    runList noCandidatesT [0, 1, 2] = .ok ⟨.malformedResponse (.obj []), 1, []⟩ :=
  c6_amended_malformed_no_retry 0 [1, 2] noCandidatesT ⟨200, some (.obj []), ""⟩
    (.obj []) rfl (by decide) (by decide) rfl rfl

/-- Claim C7: for every HTTP 2xx response whose extracted text field is
present but is an empty or whitespace-only string, the loop returns the
EmptyContent classification (a constructor distinct from
MalformedResponse) with no retry. -/
theorem c7_blank_text_empty_content (a : Nat) (rest : List Nat)
    (T : Nat → AttemptResult) (r : HttpResponse) (b : Json) (s : String)
    (hA : T a = .response r) (h2 : 200 ≤ r.status) (h3 : r.status ≤ 299)
    (hb : r.jsonBody = some b) (hx : extractText b = .ok (some (.str s)))
    (hs : pyStrip s = "") :
    runList T (a :: rest) = .ok ⟨.emptyContent b, 1, []⟩ := by
  have hok : respOk r.status = true := by
    unfold respOk
    rw [if_neg (by omega : ¬(400 ≤ r.status ∧ r.status ≤ 599))]
  have h := runIter_empty_content a r b s hok hb hx hs
  rw [← hA] at h
  simp only [runList, h]

/-- Witness for C7 at a 200 response whose text is two spaces. -/
theorem c7_blank_text_witness :
    runList blankTextT [0, 1, 2] = .ok ⟨.emptyContent blankBody, 1, []⟩ :=
  c7_blank_text_empty_content 0 [1, 2] blankTextT ⟨200, some blankBody, ""⟩
    blankBody "  " rfl (by decide) (by decide) rfl rfl (by decide)

/-- Claim C8 is false as stated: the scenarios said to reach the
fall-through return (repeated timeout, repeated 429) in fact return early
on the last attempt with the Timeout classification and the HttpError(429)
classification respectively, so ExhaustedRetries is never produced. -/
theorem c8_counterexample_fall_through_unreached :
    optimize_prompt "hi" "key" allTimeoutT = .ok ⟨.timeout, 3, [2 ^ 1, 2 ^ 2]⟩ ∧
    optimize_prompt "hi" "key" all429T = .ok ⟨.httpError 429 (.obj []), 3, [2 ^ 1, 2 ^ 2]⟩ ∧
    outcomeIs Outcome.isExhausted (optimize_prompt "hi" "key" allTimeoutT) = false ∧
    outcomeIs Outcome.isExhausted (optimize_prompt "hi" "key" all429T) = false :=
  ⟨rfl, rfl, rfl, rfl⟩

/-- Claim C8 (amended): the fall-through return after the loop carries the
ExhaustedRetries classification but is unreachable: on the final attempt
every branch of the loop body returns early, so generate never returns
ExhaustedRetries for any input and any transport behaviour. -/
theorem c8_amended_never_exhausted (p k : String) (T : Nat → AttemptResult) :
    outcomeIs Outcome.isExhausted (optimize_prompt p k T) = false := by
  unfold optimize_prompt
  by_cases hp : p = ""
  · rw [if_pos hp]; rfl
  · rw [if_neg hp]
    by_cases hk : k = ""
    · rw [if_pos hk]; rfl
    · rw [if_neg hk]
      have h2 : outcomeIs Outcome.isExhausted (runList T [2]) = false :=
        runList_last_not_exhausted T
      have h1 := runList_cons_not_exhausted T 1 [2] h2
      exact runList_cons_not_exhausted T 0 [1, 2] h1

/-- Claim C9: generate is total: for every input and every transport
behaviour (any status, any body, any raised exception) it returns a
classified result and no exception escapes the handler chain to the
caller. -/
theorem c9_total_no_escape (p k : String) (T : Nat → AttemptResult) :
    isOkE (optimize_prompt p k T) = true := by
  unfold optimize_prompt
  by_cases hp : p = ""
  · rw [if_pos hp]; rfl
  · rw [if_neg hp]
    by_cases hk : k = ""
    · rw [if_pos hk]; rfl
    · rw [if_neg hk]
      exact runList_isOk T (List.range MAX_RETRIES)

/-- Claim C10 is false as stated: it quantifies over every non-2xx
response with an unparsable body, but a 304 response is treated as OK, so
`response.json()` raises and the run is classified NetworkError, not
HttpError(304); and a 429 response with attempts remaining is retried, so
a following success yields Success rather than HttpError(429). -/
theorem c10_counterexample_bad_json :
    optimize_prompt "hi" "key" badJson304T = .ok ⟨.networkError "JSONDecodeError", 1, []⟩ ∧
    outcomeIs Outcome.isHttpError (optimize_prompt "hi" "key" badJson304T) = false ∧
    optimize_prompt "hi" "key" badJson429ThenGoodT = .ok ⟨.success "Hello", 2, [2 ^ 1]⟩ ∧
    outcomeIs Outcome.isHttpError (optimize_prompt "hi" "key" badJson429ThenGoodT) = false :=
  ⟨rfl, rfl, rfl, rfl⟩

/-- Claim C10 (amended): for every response with status 400-599 other than
429 whose body is not valid JSON, the loop still returns the
HttpError(status) classification at once; the decode failure only changes
the attached details, which become the raw text under a message key. -/
theorem c10_amended_bad_json_http_error (a : Nat) (rest : List Nat)
    (T : Nat → AttemptResult) (r : HttpResponse)
    (hA : T a = .response r) (h4 : 400 ≤ r.status) (h5 : r.status ≤ 599)
    (hne : r.status ≠ 429) (hb : r.jsonBody = none) :
    runList T (a :: rest) =
      .ok ⟨.httpError r.status (.obj [("message", .str r.text)]), 1, []⟩ := by
  have hd : errorDetails r = .obj [("message", .str r.text)] := by
    unfold errorDetails; rw [hb]
  have hm : errorMessage (errorDetails r) = .ok (.str "Check console for details.") := by
    rw [hd]; rfl
  have h := runIter_http_error a r (.str "Check console for details.") h4 h5 hne hm
  rw [← hA] at h
  rw [hd] at h
  simp only [runList, h]

/-- Witness for the amended C10 at a concrete 500 response with a
non-JSON body. -/
theorem c10_amended_witness :
    runList badJson500T [0, 1, 2] =
      .ok ⟨.httpError 500 (.obj [("message", .str "Internal Server Error")]), 1, []⟩ :=
  c10_amended_bad_json_http_error 0 [1, 2] badJson500T
    ⟨500, none, "Internal Server Error"⟩ rfl (by decide) (by decide) (by decide) rfl

end AIPrompt
